import Mathlib

/-!
Verification development for the Guardian repository's duplex live-session
core (`src/unnamed/part_001`, the tool-enabled `InsightLive` component, plus
its older sibling `src/components/InsightLive.tsx`, `src/services/genaiService.ts`,
`src/constants.ts` and the motion-hazard overlay in `src/unnamed/part_000`).

The TypeScript component is event-driven and keeps its session state in
React refs.  We embed that state shallowly: refs become record fields,
every event handler becomes a pure state-transition function, and the
side effects the handlers fire (transport sends, source stops, alert
beeps) become explicit output lists.  Clock times and sample values are
rationals; the audio clock and segment durations in the source are
finite nonnegative reals, which ℚ models exactly for every concrete run.
-/

namespace Guardian

/-! ## Playback scheduler (`src/unnamed/part_001` lines 93-105 and 140-144,
identical logic at `src/components/InsightLive.tsx` lines 100-128) -/

/-- One `AudioBufferSourceNode` tracked in `activeSourcesRef`.  `finished`
records whether the segment already completed naturally, in which case a
later `stop()` raises the stop-time error that the source code suppresses
with `try/catch`. -/
structure Source where
  id : Nat
  finished : Bool
  deriving DecidableEq, Repr

/-- The scheduler state held in the component refs: `nextStartTimeRef`
and `activeSourcesRef`. -/
structure SchedState where
  nextStartTime : ℚ
  activeSources : List Source
  deriving DecidableEq, Repr

/-- The audio branch of `onmessage` (part_001 lines 96-105): compute
`startTime = max(ctx.currentTime, nextStartTimeRef.current)`, start the
source there, advance `nextStartTimeRef` by the decoded buffer's duration
and add the source to `activeSourcesRef`.  Returns the new state and the
scheduled start time. -/
def scheduleSegment (currentTime duration : ℚ) (sid : Nat) (st : SchedState) :
    SchedState × ℚ :=
  let startTime := max currentTime st.nextStartTime
  (⟨startTime + duration, st.activeSources ++ [⟨sid, false⟩]⟩, startTime)

/-- Run the scheduler over a sequence of inbound audio segments, each given
as `(clock time at scheduling, duration)`.  Produces the trace of
`(clock time, scheduled start, duration)` triples. -/
def runSchedule (st : SchedState) : List (ℚ × ℚ) → List (ℚ × ℚ × ℚ)
  | [] => []
  | e :: rest =>
    let r := scheduleSegment e.1 e.2 st.activeSources.length st
    (e.1, r.2, e.2) :: runSchedule r.1 rest

/-- Two scheduled segments, each `(start, duration)`, overlap when their
open play intervals intersect. -/
def segOverlaps (a b : ℚ × ℚ) : Prop := a.1 < b.1 + b.2 ∧ b.1 < a.1 + a.2

/-- `onmessage` interruption branch (part_001 lines 140-144): stop every
active source — `stop()` on an already-finished source throws and the
`catch` swallows it, recorded here as the Bool paired with each stopped
id — then clear the set and reset `nextStartTimeRef` to `0`. -/
def interrupt (st : SchedState) : SchedState × List (Nat × Bool) :=
  (⟨0, []⟩, st.activeSources.map fun s => (s.id, s.finished))

/-- Every start produced by a run is at or after the incoming state's
`nextStartTime`, provided durations are nonnegative. -/
theorem runSchedule_start_lb (events : List (ℚ × ℚ)) :
    ∀ st : SchedState, (∀ e ∈ events, 0 ≤ e.2) →
      ∀ t ∈ runSchedule st events, st.nextStartTime ≤ t.2.1 := by
  induction events with
  | nil => intro st _ t ht; simp [runSchedule] at ht
  | cons e rest ih =>
    intro st hdur t ht
    simp only [runSchedule, List.mem_cons] at ht
    rcases ht with h | h
    · subst h
      simp [scheduleSegment]
    · have h0 : 0 ≤ e.2 := hdur e (by simp)
      have hrest : ∀ x ∈ rest, 0 ≤ x.2 := fun x hx => hdur x (List.mem_cons_of_mem e hx)
      have := ih _ hrest t h
      refine le_trans ?_ this
      simp only [scheduleSegment]
      calc st.nextStartTime ≤ max e.1 st.nextStartTime := le_max_right _ _
        _ ≤ max e.1 st.nextStartTime + e.2 := le_add_of_nonneg_right h0

/-- Successive scheduled segments are chained: each one ends no later than
any later one starts. -/
theorem runSchedule_chained (events : List (ℚ × ℚ)) :
    ∀ st : SchedState, (∀ e ∈ events, 0 ≤ e.2) →
      List.Pairwise (fun a b => a.1 + a.2 ≤ b.1)
        ((runSchedule st events).map fun t => (t.2.1, t.2.2)) := by
  induction events with
  | nil => intro st _; simp [runSchedule]
  | cons e rest ih =>
    intro st hdur
    have hrest : ∀ x ∈ rest, 0 ≤ x.2 := fun x hx => hdur x (List.mem_cons_of_mem e hx)
    simp only [runSchedule, List.map_cons, List.pairwise_cons]
    constructor
    · intro b hb
      simp only [List.mem_map] at hb
      obtain ⟨t, ht, rfl⟩ := hb
      have := runSchedule_start_lb rest _ hrest t ht
      simpa [scheduleSegment] using this
    · exact ih _ hrest

/-- C1: every inbound audio segment is scheduled at
`max(currentClockTime, nextStartTime)`, immediately afterwards
`nextStartTime` equals that start plus the segment's duration, and over any
sequence of enqueued segments no two scheduled segments overlap and none is
scheduled to start before the output clock's current time at scheduling
time. -/
theorem playback_scheduling_invariant (events : List (ℚ × ℚ)) (st : SchedState)
    (hdur : ∀ e ∈ events, 0 ≤ e.2) :
    (∀ cur dur : ℚ, ∀ sid : Nat, ∀ s : SchedState,
        (scheduleSegment cur dur sid s).2 = max cur s.nextStartTime ∧
        (scheduleSegment cur dur sid s).1.nextStartTime =
          (scheduleSegment cur dur sid s).2 + dur) ∧
    (∀ t ∈ runSchedule st events, t.1 ≤ t.2.1) ∧
    List.Pairwise (fun a b => ¬ segOverlaps a b)
      ((runSchedule st events).map fun t => (t.2.1, t.2.2)) := by
  refine ⟨fun cur dur sid s => ⟨rfl, rfl⟩, ?_, ?_⟩
  · intro t ht
    induction events generalizing st with
    | nil => simp [runSchedule] at ht
    | cons e rest ih =>
      simp only [runSchedule, List.mem_cons] at ht
      rcases ht with h | h
      · subst h; simp [scheduleSegment]
      · exact ih _ (fun x hx => hdur x (List.mem_cons_of_mem e hx)) h
  · have := runSchedule_chained events st hdur
    refine this.imp ?_
    intro a b hab hover
    exact absurd hab (not_le.mpr hover.2)

/-- Witness for C1 on the spec's own scenario: segment A of duration 1 at
clock 0, then segment B of duration 1/2 at clock 1/5. -/
theorem playback_scheduling_invariant_witness :
    (∀ e ∈ [((0 : ℚ), (1 : ℚ)), ((1/5 : ℚ), (1/2 : ℚ))], 0 ≤ e.2) ∧
    ((∀ cur dur : ℚ, ∀ sid : Nat, ∀ s : SchedState,
        (scheduleSegment cur dur sid s).2 = max cur s.nextStartTime ∧
        (scheduleSegment cur dur sid s).1.nextStartTime =
          (scheduleSegment cur dur sid s).2 + dur) ∧
    (∀ t ∈ runSchedule ⟨0, []⟩ [((0 : ℚ), (1 : ℚ)), ((1/5 : ℚ), (1/2 : ℚ))],
        t.1 ≤ t.2.1) ∧
    List.Pairwise (fun a b => ¬ segOverlaps a b)
      ((runSchedule ⟨0, []⟩
          [((0 : ℚ), (1 : ℚ)), ((1/5 : ℚ), (1/2 : ℚ))]).map
        fun t => (t.2.1, t.2.2))) :=
  ⟨by norm_num,
   playback_scheduling_invariant
     [((0 : ℚ), (1 : ℚ)), ((1/5 : ℚ), (1/2 : ℚ))] ⟨0, []⟩ (by norm_num)⟩

/-- C3: `interrupt` stops every member of ActiveSources (the stop of an
already-finished source has its error suppressed, so the handler is total),
afterwards ActiveSources is empty and `nextStartTime` is `0` regardless of
how many segments were active, and on an empty set it is a no-op that
issues no stops. -/
theorem interrupt_flushes_playback (st : SchedState) (t : ℚ) :
    (interrupt st).1.activeSources = [] ∧
    (interrupt st).1.nextStartTime = 0 ∧
    (interrupt st).2.map Prod.fst = st.activeSources.map Source.id ∧
    interrupt ⟨t, []⟩ = (⟨0, []⟩, []) := by
  refine ⟨rfl, rfl, ?_, rfl⟩
  simp [interrupt]

/-! ## Session controller (`src/unnamed/part_001` lines 45-204).

The component keeps its resources in refs (`streamRef`, `inputContextRef`,
`audioContextRef`, `workletNodeRef`, `frameIntervalRef`) and its visible
status in React state.  We model each resource by acquisition/teardown
flags.  Note the component has NO generation counter of any kind — that
matters for claims C4 and C5. -/

inductive Status
  | idle
  | connecting
  | connected
  | error
  deriving DecidableEq, Repr

structure ControllerState where
  status : Status
  /-- `streamRef.current` holds a MediaStream. -/
  streamAcquired : Bool
  /-- the stream's tracks have been stopped (`t.stop()`). -/
  tracksStopped : Bool
  inputCtxCreated : Bool
  inputCtxClosed : Bool
  outputCtxCreated : Bool
  outputCtxClosed : Bool
  /-- `workletNodeRef.current` holds a node wired into the input graph. -/
  workletConnected : Bool
  /-- the `setInterval` frame timer is running. -/
  frameTimerActive : Bool
  /-- the `ai.live.connect` session has been opened and never closed. -/
  sessionOpen : Bool
  sched : SchedState
  deriving DecidableEq, Repr

/-- The state before any activation: everything idle and unacquired. -/
def initState : ControllerState :=
  ⟨Status.idle, false, false, false, false, false, false, false, false, false, ⟨0, []⟩⟩

/-- `disconnect` (part_001 lines 191-198): disconnect the worklet node,
stop the stream's tracks, close both audio contexts, clear the frame
interval and set status to `idle`.  It touches nothing else — in
particular it does not close the live session, does not clear
`activeSourcesRef` and does not reset `nextStartTimeRef` (the older
variant at `InsightLive.tsx` lines 205-234 does clear the sources but
likewise never closes the session). -/
def disconnect (st : ControllerState) : ControllerState :=
  { st with
    workletConnected := false
    tracksStopped := st.tracksStopped || st.streamAcquired
    inputCtxClosed := st.inputCtxClosed || st.inputCtxCreated
    outputCtxClosed := st.outputCtxClosed || st.outputCtxCreated
    frameTimerActive := false
    status := Status.idle }

/-- Which awaited step of `connectLive`'s `try` block fails, if any.  The
steps acquire resources in source order: `getUserMedia` (mic stream),
input `AudioContext`, `audioWorklet.addModule`, output `AudioContext`,
then `ai.live.connect`. -/
inductive ConnectOutcome
  | success
  /-- `getUserMedia` rejects: nothing was acquired yet. -/
  | failAtMic
  /-- `addModule` rejects: the stream and the input context were already
  acquired. -/
  | failAtWorklet
  /-- connecting fails: stream and both contexts were already acquired. -/
  | failAtConnect
  deriving DecidableEq, Repr

/-- `connectLive` (part_001 lines 45-154).  `setStatus('connecting')`,
then the `try` block acquires resources in order; the `catch` block
(lines 150-153) only logs and does `setStatus('error')` — it releases
nothing.  On success the session is open and status stays `connecting`
until the `onopen` callback fires. -/
def connectLive (o : ConnectOutcome) (st : ControllerState) : ControllerState :=
  let st1 := { st with status := Status.connecting }
  match o with
  | ConnectOutcome.failAtMic => { st1 with status := Status.error }
  | ConnectOutcome.failAtWorklet =>
      { st1 with
        streamAcquired := true, tracksStopped := false
        inputCtxCreated := true, inputCtxClosed := false
        status := Status.error }
  | ConnectOutcome.failAtConnect =>
      { st1 with
        streamAcquired := true, tracksStopped := false
        inputCtxCreated := true, inputCtxClosed := false
        outputCtxCreated := true, outputCtxClosed := false
        status := Status.error }
  | ConnectOutcome.success =>
      { st1 with
        streamAcquired := true, tracksStopped := false
        inputCtxCreated := true, inputCtxClosed := false
        outputCtxCreated := true, outputCtxClosed := false
        sessionOpen := true }

/-- An inbound tool invocation `{id, name, args}`; every tool in this
repository takes a single `query` argument. -/
structure FunctionCall where
  id : String
  name : String
  argsQuery : String
  deriving DecidableEq, Repr

/-- Outbound sends issued through the resolved session promise. -/
inductive SendAction
  | toolResponse (id : String) (name : String) (response : String)
  | realtimeAudio (samples : List ℚ)
  | realtimeImage (frame : Nat)
  deriving DecidableEq, Repr

/-- The `sessionPromise.then(session => session.sendToolResponse(...))`
continuation (part_001 lines 127-135).  It reads no controller state
whatsoever — there is no generation comparison, no status check — so it
emits its send unconditionally. -/
def sendToolResponseContinuation (st : ControllerState) (fc : FunctionCall)
    (result : String) : List SendAction :=
  [SendAction.toolResponse fc.id fc.name result]

/-- The `sessionPromise.then(session => session.sendRealtimeInput(...))`
continuation of the audio worklet handler (part_001 line 168,
`InsightLive.tsx` lines 167-169).  Also unconditional. -/
def sendAudioContinuation (st : ControllerState) (samples : List ℚ) :
    List SendAction :=
  [SendAction.realtimeAudio samples]

/-- C4 counterexample: run a full activation, then `disconnect` (the
deactivation is complete: status is back to `idle`), and let an in-flight
tool-handler completion resolve afterwards.  Its continuation still emits
the `sendToolResponse` on the torn-down session instead of being a no-op,
so the claimed generation-mismatch gating does not exist in the code. -/
theorem stale_callback_not_gated_cex :
    (disconnect (connectLive ConnectOutcome.success initState)).status =
      Status.idle ∧
    sendToolResponseContinuation
        (disconnect (connectLive ConnectOutcome.success initState))
        ⟨"t1", "search_google", "weather"⟩ ("ok") ≠ [] := by
  refine ⟨rfl, ?_⟩
  simp [sendToolResponseContinuation]

/-- C4 amended: the asynchronous send continuations are not gated at all.
The component state carries no generation, and both the tool-response
continuation and the outbound-audio continuation emit their send
regardless of the controller state they run in — in particular after
`disconnect`. -/
theorem stale_callback_amended (st : ControllerState) (fc : FunctionCall)
    (result : String) (samples : List ℚ) :
    sendToolResponseContinuation st fc result =
      [SendAction.toolResponse fc.id fc.name result] ∧
    sendAudioContinuation st samples = [SendAction.realtimeAudio samples] :=
  ⟨rfl, rfl⟩

/-- C5 counterexample: from a fully connected state with one active
playback source, `disconnect` leaves the live session open (the code never
closes it) and leaves `activeSourcesRef` untouched, contrary to the claim
that it closes the transport channel and clears ActiveSources. -/
theorem disconnect_claim_cex :
    (disconnect ⟨Status.connected, true, false, true, false, true, false,
        true, true, true, ⟨3, [⟨0, false⟩]⟩⟩).sessionOpen = true ∧
    (disconnect ⟨Status.connected, true, false, true, false, true, false,
        true, true, true, ⟨3, [⟨0, false⟩]⟩⟩).sched =
      (⟨3, [⟨0, false⟩]⟩ : SchedState) :=
  ⟨rfl, rfl⟩

/-- C5 amended: `disconnect` is idempotent and safe from any state; it
stops the frame timer, disconnects the capture worklet, stops the capture
tracks when a stream was acquired, closes both audio contexts when they
were created, and resets status to `idle`; but it leaves the transport
session and the playback scheduler state (ActiveSources, `nextStartTime`)
untouched. -/
theorem disconnect_amended (st : ControllerState) :
    disconnect (disconnect st) = disconnect st ∧
    (disconnect st).status = Status.idle ∧
    (disconnect st).frameTimerActive = false ∧
    (disconnect st).workletConnected = false ∧
    (disconnect st).tracksStopped = (st.tracksStopped || st.streamAcquired) ∧
    (disconnect st).inputCtxClosed = (st.inputCtxClosed || st.inputCtxCreated) ∧
    (disconnect st).outputCtxClosed = (st.outputCtxClosed || st.outputCtxCreated) ∧
    (disconnect st).sessionOpen = st.sessionOpen ∧
    (disconnect st).sched = st.sched := by
  refine ⟨?_, rfl, rfl, rfl, rfl, rfl, rfl, rfl, rfl⟩
  cases st
  simp [disconnect, Bool.or_assoc]

/-- C7 counterexample: when `audioWorklet.addModule` fails mid-activation,
the `catch` block sets status to `error` but releases nothing: the
microphone stream stays acquired with its tracks running and the input
audio context stays open, contrary to the claim that every partially
acquired resource is released before `activate()` returns. -/
theorem connect_failure_retains_resources_cex :
    (connectLive ConnectOutcome.failAtWorklet initState).status = Status.error ∧
    (connectLive ConnectOutcome.failAtWorklet initState).streamAcquired = true ∧
    (connectLive ConnectOutcome.failAtWorklet initState).tracksStopped = false ∧
    (connectLive ConnectOutcome.failAtWorklet initState).inputCtxClosed = false :=
  ⟨rfl, rfl, rfl, rfl⟩

/-- C7 amended: any failure during `connectLive` makes the status `error`
and there is no retry, but the failure path performs no release: resources
acquired before the failing step remain held (mic stream unreleased,
input context unclosed) until some later `disconnect`. -/
theorem connect_failure_amended (st : ControllerState) (o : ConnectOutcome)
    (h : o ≠ ConnectOutcome.success) :
    (connectLive o st).status = Status.error ∧
    (o = ConnectOutcome.failAtWorklet ∨ o = ConnectOutcome.failAtConnect →
      (connectLive o st).streamAcquired = true ∧
      (connectLive o st).tracksStopped = false ∧
      (connectLive o st).inputCtxCreated = true ∧
      (connectLive o st).inputCtxClosed = false) := by
  cases o with
  | success => exact absurd rfl h
  | failAtMic => exact ⟨rfl, by rintro (h | h) <;> exact absurd h (by simp)⟩
  | failAtWorklet => exact ⟨rfl, fun _ => ⟨rfl, rfl, rfl, rfl⟩⟩
  | failAtConnect => exact ⟨rfl, fun _ => ⟨rfl, rfl, rfl, rfl⟩⟩

/-- Witness for C7 amended at the `addModule` failure from the initial
state. -/
theorem connect_failure_amended_witness :
    (ConnectOutcome.failAtWorklet ≠ ConnectOutcome.success) ∧
    ((connectLive ConnectOutcome.failAtWorklet initState).status = Status.error ∧
    (ConnectOutcome.failAtWorklet = ConnectOutcome.failAtWorklet ∨
        ConnectOutcome.failAtWorklet = ConnectOutcome.failAtConnect →
      (connectLive ConnectOutcome.failAtWorklet initState).streamAcquired = true ∧
      (connectLive ConnectOutcome.failAtWorklet initState).tracksStopped = false ∧
      (connectLive ConnectOutcome.failAtWorklet initState).inputCtxCreated = true ∧
      (connectLive ConnectOutcome.failAtWorklet initState).inputCtxClosed = false)) :=
  ⟨by decide, connect_failure_amended initState ConnectOutcome.failAtWorklet
    (by decide)⟩

/-! ## Tool-call dispatch (`src/unnamed/part_001` lines 109-137 and
`performToolSearch` in `src/services/genaiService.ts` lines 57-72). -/

/-- How the environment behind `performToolSearch` behaves for one query:
the module-level API key may be missing, the model call may resolve with a
text (JavaScript `response.text || fallback` treats the empty string as
absent), or the call may reject. -/
inductive SearchOutcome
  | noApiKey
  | ok (text : String)
  | err
  deriving DecidableEq, Repr

/-- `performToolSearch` (genaiService.ts lines 57-72): returns the guard
string without an API key, the response text (or the fallback when it is
empty/absent), and on any thrown error the `catch` returns an apologetic
string — it never throws. -/
def performToolSearch (o : SearchOutcome) : String :=
  match o with
  | SearchOutcome.noApiKey => "API Key missing"
  | SearchOutcome.ok t =>
      if t = "" then "I found some results but couldn\x27t summarize them." else t
  | SearchOutcome.err => "I had trouble connecting to Search."

/-- One entry of the outbound `functionResponses` array. -/
structure FunctionResponsePart where
  id : String
  name : String
  response : String
  deriving DecidableEq, Repr

/-- The body of the `for (const fc of toolCall.functionCalls)` loop
(part_001 lines 111-124): `result` starts as the neutral `ok` payload, is
replaced by the awaited search answer for `search_google`, and by the
player confirmation for `play_video` (whose `setMediaState` side effect
does not affect the response).  Unknown names keep the neutral payload. -/
def handleToolCall (search : String → SearchOutcome) (fc : FunctionCall) : String :=
  if fc.name = "search_google" then performToolSearch (search fc.argsQuery)
  else if fc.name = "play_video" then "Video player started for " ++ fc.argsQuery
  else "ok"

/-- The whole dispatch loop: one `sendToolResponse` per invocation, built
from that invocation's `id` and `name` (part_001 lines 126-135). -/
def dispatchToolCalls (search : String → SearchOutcome)
    (calls : List FunctionCall) : List FunctionResponsePart :=
  calls.map fun fc => ⟨fc.id, fc.name, handleToolCall search fc⟩

/-- C2: a batch of N invocations produces exactly N responses; the
responses carry exactly the batch's ids (so each id is answered exactly as
often as it occurs, and a batch of distinct ids — the protocol's
correlation discipline — gets no duplicate responses); and unknown tool
names as well as failing search handlers still get a correlated response
with a neutral/error payload rather than silence. -/
theorem toolcall_batch_responses (search : String → SearchOutcome)
    (calls : List FunctionCall)
    (hid : (calls.map FunctionCall.id).Nodup) :
    (dispatchToolCalls search calls).length = calls.length ∧
    (dispatchToolCalls search calls).map FunctionResponsePart.id =
      calls.map FunctionCall.id ∧
    ((dispatchToolCalls search calls).map FunctionResponsePart.id).Nodup ∧
    (∀ fc ∈ calls, fc.name ≠ "search_google" → fc.name ≠ "play_video" →
      (⟨fc.id, fc.name, "ok"⟩ : FunctionResponsePart) ∈
        dispatchToolCalls search calls) ∧
    (∀ fc ∈ calls, fc.name = "search_google" → search fc.argsQuery = SearchOutcome.err →
      (⟨fc.id, fc.name, "I had trouble connecting to Search."⟩ :
          FunctionResponsePart) ∈ dispatchToolCalls search calls) := by
  have hmap : (dispatchToolCalls search calls).map FunctionResponsePart.id =
      calls.map FunctionCall.id := by
    simp [dispatchToolCalls, Function.comp]
  refine ⟨by simp [dispatchToolCalls], hmap, by rw [hmap]; exact hid, ?_, ?_⟩
  · intro fc hfc h1 h2
    have : (⟨fc.id, fc.name, handleToolCall search fc⟩ : FunctionResponsePart) ∈
        dispatchToolCalls search calls := List.mem_map_of_mem _ hfc
    rwa [show handleToolCall search fc = "ok" from by
      simp [handleToolCall, h1, h2]] at this
  · intro fc hfc h1 h2
    have : (⟨fc.id, fc.name, handleToolCall search fc⟩ : FunctionResponsePart) ∈
        dispatchToolCalls search calls := List.mem_map_of_mem _ hfc
    rwa [show handleToolCall search fc = "I had trouble connecting to Search."
      from by simp [handleToolCall, h1, h2, performToolSearch]] at this

/-- Witness for C2: a two-invocation batch with distinct ids, a failing
search environment and one unknown tool name. -/
theorem toolcall_batch_responses_witness :
    (([⟨"t1", "search_google", "weather"⟩,
       ⟨"t2", "mystery_tool", "x"⟩] : List FunctionCall).map
        FunctionCall.id).Nodup ∧
    (dispatchToolCalls (fun _ => SearchOutcome.err)
        [⟨"t1", "search_google", "weather"⟩,
         ⟨"t2", "mystery_tool", "x"⟩]).length =
      ([⟨"t1", "search_google", "weather"⟩,
        ⟨"t2", "mystery_tool", "x"⟩] : List FunctionCall).length :=
  ⟨by decide,
   (toolcall_batch_responses (fun _ => SearchOutcome.err)
      [⟨"t1", "search_google", "weather"⟩, ⟨"t2", "mystery_tool", "x"⟩]
      (by decide)).1⟩

/-! ## Connect configuration (`src/unnamed/part_001` lines 72-83,
`src/components/InsightLive.tsx` lines 73-81, `src/constants.ts`). -/

inductive Modality
  | AUDIO
  deriving DecidableEq, Repr

/-- A tool declaration from `src/constants.ts`; all tools here declare a
single required string parameter. -/
structure FunctionDeclaration where
  name : String
  description : String
  paramProperties : List String
  paramRequired : List String
  deriving DecidableEq, Repr

/-- `SEARCH_TOOL` (constants.ts lines 7-20). -/
def SEARCH_TOOL : FunctionDeclaration :=
  ⟨"search_google",
   "Search Google for real-time information, news, weather, prices, shopping, or general knowledge.",
   ["query"], ["query"]⟩

/-- `PLAY_TOOL` (constants.ts lines 22-35). -/
def PLAY_TOOL : FunctionDeclaration :=
  ⟨"play_video", "Play a video or music on YouTube.", ["query"], ["query"]⟩

/-- `LIVE_MODEL` (constants.ts line 3). -/
def LIVE_MODEL : String := "gemini-2.5-flash-native-audio-preview-09-2025"

/-- `SYSTEM_INSTRUCTION_INSIGHT` (constants.ts lines 37-49), the template
literal passed verbatim as the session's system instruction (apostrophes
written as \x27 escapes). -/
def SYSTEM_INSTRUCTION_INSIGHT : String :=
  "You are Lumen, a \"Digital Visual Cortex\" for the visually impaired.\nYour Default Mode is \"Cognition\": You see the world through the camera and hear the user.\n\nCapabilities:\n1. **Vision**: Describe the environment, people, and objects naturally.\n2. **Search**: If the user asks for info you don\x27t know (news, weather, *prices*, *shopping info*, facts), use the \x27search_google\x27 tool.\n3. **Media**: If the user wants to hear music or a video, use the \x27play_video\x27 tool.\n\nRules:\n- Be concise and conversational.\n- If finding prices, mention the price clearly.\n- If playing media, say \"Playing [content]\" and call the tool.\n- Do not announce you are using a tool, just do it."

/-- The `config` object passed to `ai.live.connect`; `tools` is an
optional field of the wire format (absent in the older variant). -/
structure LiveConnectConfig where
  responseModalities : List Modality
  systemInstruction : String
  tools : Option (List (List FunctionDeclaration))
  speechVoiceName : String
  deriving DecidableEq, Repr

/-- The full connect request `{ model, config, callbacks }` (callbacks
carry no configuration data). -/
structure LiveConnectRequest where
  model : String
  config : LiveConnectConfig
  deriving DecidableEq, Repr

/-- The connect request built by the tool-enabled component (part_001
lines 72-83): modality AUDIO, `SYSTEM_INSTRUCTION_INSIGHT`, the two tool
declarations, voice `Kore`. -/
def part001ConnectRequest : LiveConnectRequest :=
  ⟨LIVE_MODEL,
   ⟨[Modality.AUDIO], SYSTEM_INSTRUCTION_INSIGHT,
    some [[SEARCH_TOOL, PLAY_TOOL]], "Kore"⟩⟩

/-- The connect request built by `InsightLive.tsx` (lines 73-81): same
modality, instruction and voice, but NO `tools` field at all. -/
def tsxConnectRequest : LiveConnectRequest :=
  ⟨LIVE_MODEL, ⟨[Modality.AUDIO], SYSTEM_INSTRUCTION_INSIGHT, none, "Kore"⟩⟩

/-- C8 counterexample: the connect call in `src/components/InsightLive.tsx`
omits the `tools` field entirely, so the repository's connect requests do
not always carry the tool declarations; only the tool-enabled variant in
part_001 does. -/
theorem connect_config_missing_tools_cex :
    tsxConnectRequest.config.tools = none ∧
    part001ConnectRequest.config.tools = some [[SEARCH_TOOL, PLAY_TOOL]] :=
  ⟨rfl, rfl⟩

/-- C8 amended: both connect call sites fix response modality AUDIO, the
Insight system instruction and the `Kore` voice on the `LIVE_MODEL`; the
tool-enabled component additionally always carries the declarations
`[SEARCH_TOOL, PLAY_TOOL]`, while the `InsightLive.tsx` variant sends no
tools field. -/
theorem connect_config_amended :
    part001ConnectRequest.model = LIVE_MODEL ∧
    part001ConnectRequest.config.responseModalities = [Modality.AUDIO] ∧
    part001ConnectRequest.config.systemInstruction = SYSTEM_INSTRUCTION_INSIGHT ∧
    part001ConnectRequest.config.speechVoiceName = "Kore" ∧
    part001ConnectRequest.config.tools = some [[SEARCH_TOOL, PLAY_TOOL]] ∧
    tsxConnectRequest.model = LIVE_MODEL ∧
    tsxConnectRequest.config.responseModalities = [Modality.AUDIO] ∧
    tsxConnectRequest.config.systemInstruction = SYSTEM_INSTRUCTION_INSIGHT ∧
    tsxConnectRequest.config.speechVoiceName = "Kore" ∧
    tsxConnectRequest.config.tools = none :=
  ⟨rfl, rfl, rfl, rfl, rfl, rfl, rfl, rfl, rfl, rfl⟩

/-! ## Volume telemetry (`src/unnamed/part_001` lines 162-167; the older
variant at `InsightLive.tsx` lines 156-164 differs only in how the stride
is chosen).  The worklet handler walks the block with stride 50, sums
squares of the visited samples, and emits
`Math.sqrt(sum / (inputData.length / step))`. -/

/-- The loop `for (let i = 0; i < n; i += step) sum += x[i] * x[i]`:
the visited indices are `k * step` for `k < ceil(n / step)`. -/
def strideSumSq (xs : List ℚ) (step : Nat) : ℚ :=
  ((List.range ((xs.length + step - 1) / step)).map
    fun k => xs.getD (k * step) 0 * xs.getD (k * step) 0).sum

/-- The argument of `Math.sqrt` in the telemetry expression, with the
source's fixed stride of 50. -/
def volumeSq (xs : List ℚ) : ℚ :=
  strideSumSq xs 50 / ((xs.length : ℚ) / 50)

/-- The value passed to `setVolume`. -/
noncomputable def emittedVolume (xs : List ℚ) : ℝ :=
  Real.sqrt ((volumeSq xs : ℚ) : ℝ)

/-- C6 counterexample: a block containing the single sample `2` (worklet
samples are not clamped to `[-1, 1]`) produces volume `sqrt 200 > 1`; the
code applies no clamping or normalization, so the telemetry is not bounded
by 1 for arbitrary input magnitudes. -/
theorem volume_exceeds_one_cex :
    volumeSq [(2 : ℚ)] = 200 ∧ 1 < emittedVolume [(2 : ℚ)] := by
  have h : volumeSq [(2 : ℚ)] = 200 := by
    simp [volumeSq, strideSumSq, List.range_succ]
    norm_num
  refine ⟨h, ?_⟩
  rw [emittedVolume, h]
  have h2 : ((200 : ℚ) : ℝ) = (200 : ℝ) := by norm_num
  rw [h2]
  exact Real.lt_sqrt_of_sq_lt (by norm_num)

/-- C6 amended: the emitted volume is a nonnegative RMS-style estimate
computed from the strided subsample only (it depends only on the samples
at indices that are multiples of the stride), and it is bounded by 1 when
every sample lies in `[-1, 1]` and the stride divides the block length;
the code performs no clamping, so outside those conditions the value can
exceed 1. -/
theorem volume_amended (xs : List ℚ) :
    0 ≤ emittedVolume xs ∧
    (xs.length ≠ 0 → 50 ∣ xs.length → (∀ x ∈ xs, x * x ≤ 1) →
      volumeSq xs ≤ 1 ∧ emittedVolume xs ≤ 1) ∧
    (∀ ys : List ℚ, ys.length = xs.length →
      (∀ k : Nat, ys.getD (k * 50) 0 = xs.getD (k * 50) 0) →
      volumeSq ys = volumeSq xs) := by
  refine ⟨Real.sqrt_nonneg _, ?_, ?_⟩
  · intro hne hdvd hamp
    obtain ⟨m, hm⟩ := hdvd
    have hm0 : m ≠ 0 := by
      intro h0; exact hne (by simp [hm, h0])
    have hiter : (xs.length + 49) / 50 = m := by omega
    have hbound : ∀ y ∈ (List.range m).map
        (fun k => xs.getD (k * 50) 0 * xs.getD (k * 50) 0), y ≤ 1 := by
      intro y hy
      simp only [List.mem_map, List.mem_range] at hy
      obtain ⟨k, hk, rfl⟩ := hy
      have hidx : k * 50 < xs.length := by omega
      rw [List.getD_eq_getElem xs 0 hidx]
      exact hamp _ (List.getElem_mem hidx)
    have hsum : strideSumSq xs 50 ≤ (m : ℚ) := by
      have := List.sum_le_card_nsmul _ (1 : ℚ) hbound
      simpa [strideSumSq, hiter, nsmul_eq_mul] using this
    have hden : ((xs.length : ℚ) / 50) = (m : ℚ) := by
      rw [hm]; push_cast; ring
    have hmpos : (0 : ℚ) < (m : ℚ) := by
      exact_mod_cast Nat.pos_of_ne_zero hm0
    have hq : volumeSq xs ≤ 1 := by
      rw [volumeSq, hden, div_le_one hmpos]; exact hsum
    refine ⟨hq, ?_⟩
    have : emittedVolume xs ≤ Real.sqrt 1 := by
      apply Real.sqrt_le_sqrt
      exact_mod_cast hq
    simpa [Real.sqrt_one] using this
  · intro ys hlen hk
    simp only [volumeSq, strideSumSq, hlen]
    congr 1
    exact congrArg List.sum (List.map_congr_left fun k _ => by rw [hk k])

/-- Witness for C6 amended: a 50-sample block of value 1/2 satisfies the
hypotheses and its volume stays below 1. -/
theorem volume_amended_witness :
    (50 ∣ (List.replicate 50 ((1 : ℚ)/2)).length) ∧
    emittedVolume (List.replicate 50 ((1 : ℚ)/2)) ≤ 1 :=
  ⟨by simp,
   ((volume_amended (List.replicate 50 ((1 : ℚ)/2))).2.1 (by simp) (by simp)
     (fun x hx => by rw [List.eq_of_mem_replicate hx]; norm_num)).2⟩

/-! ## Frame sampler (`src/unnamed/part_001` lines 174-189; the same shape
at `InsightLive.tsx` lines 176-203 with the scale named explicitly). -/

/-- What one `setInterval` tick observes: whether `videoRef.current` is
set, the element's `readyState`, dimensions, whether the 2D canvas
context was obtained, and the current frame contents (abstract). -/
structure VideoTickEnv where
  videoPresent : Bool
  readyState : Nat
  videoWidth : ℚ
  videoHeight : ℚ
  ctx2dOk : Bool
  frame : Nat
  deriving DecidableEq, Repr

/-- An outbound image payload: mime tag, the downscaled canvas dimensions,
the JPEG quality and the source frame. -/
structure SentFrame where
  mimeType : String
  width : ℚ
  height : ℚ
  quality : ℚ
  frame : Nat
  deriving DecidableEq, Repr

/-- One timer tick (part_001 lines 176-188): bail out when the video is
missing or `readyState < 2`; otherwise draw onto a canvas scaled by 0.5,
compress as JPEG quality 0.6, and send.  A `none` result sends nothing
and queues nothing. -/
def videoTick (env : VideoTickEnv) : Option SentFrame :=
  if env.videoPresent = false ∨ env.readyState < 2 then none
  else if env.ctx2dOk then
    some ⟨"image/jpeg", env.videoWidth * (1/2), env.videoHeight * (1/2),
          3/5, env.frame⟩
  else none

/-- The sampler over a whole run of ticks.  It is stateless, so its sends
are exactly the per-tick results. -/
def runFrameSampler (ticks : List VideoTickEnv) : List SentFrame :=
  ticks.filterMap videoTick

/-- C9: a tick that finds no usable frame (no element, or
`readyState < 2`) is skipped entirely — nothing is captured, queued or
sent later, so removing such a tick from a run changes nothing; a tick
with a ready frame sends that frame downscaled by the fixed factor 1/2 at
JPEG quality 0.6. -/
theorem frame_sampler_skip (env : VideoTickEnv) :
    (env.videoPresent = false ∨ env.readyState < 2 → videoTick env = none) ∧
    (env.videoPresent = true → 2 ≤ env.readyState → env.ctx2dOk = true →
      videoTick env =
        some ⟨"image/jpeg", env.videoWidth * (1/2), env.videoHeight * (1/2),
              3/5, env.frame⟩) ∧
    (∀ pre post : List VideoTickEnv, videoTick env = none →
      runFrameSampler (pre ++ env :: post) =
        runFrameSampler pre ++ runFrameSampler post) := by
  refine ⟨fun h => by simp [videoTick, h], ?_, ?_⟩
  · intro h1 h2 h3
    have hn : ¬ (env.videoPresent = false ∨ env.readyState < 2) := by
      rintro (h | h)
      · rw [h1] at h; exact absurd h (by simp)
      · omega
    simp [videoTick, hn, h3]
  · intro pre post hnone
    simp [runFrameSampler, List.filterMap_append, hnone]

/-- Witness for C9 at a not-yet-ready tick between two ready ones. -/
theorem frame_sampler_skip_witness :
    videoTick ⟨false, 0, 640, 480, true, 7⟩ = none ∧
    runFrameSampler [⟨true, 4, 640, 480, true, 1⟩,
        ⟨false, 0, 640, 480, true, 7⟩, ⟨true, 4, 640, 480, true, 2⟩] =
      runFrameSampler [⟨true, 4, 640, 480, true, 1⟩] ++
        runFrameSampler [⟨true, 4, 640, 480, true, 2⟩] := by
  have h := frame_sampler_skip ⟨false, 0, 640, 480, true, 7⟩
  have hn : videoTick ⟨false, 0, 640, 480, true, 7⟩ = none :=
    h.1 (Or.inl rfl)
  exact ⟨hn, h.2.2 [⟨true, 4, 640, 480, true, 1⟩]
    [⟨true, 4, 640, 480, true, 2⟩] hn⟩

/-! ## Motion-hazard alert debounce (`src/unnamed/part_000` lines 29-60,
the `triggerAlert` handler of `GuardianOverlay`). -/

/-- `lastAlertTimeRef` in milliseconds since the epoch. -/
structure AlertState where
  lastAlertTime : ℤ
  deriving DecidableEq, Repr

/-- `triggerAlert` (part_000 lines 29-60): if fewer than 250 ms passed
since the last emitted alert, return without any side effect; otherwise
record the time and emit the alert (the 200 ms vibration plus the
sawtooth beep).  The Bool reports whether the alert was emitted. -/
def triggerAlert (now : ℤ) (st : AlertState) : AlertState × Bool :=
  if now - st.lastAlertTime < 250 then (st, false)
  else (⟨now⟩, true)

/-- A run of `triggerAlert` calls at the given times; returns the times of
the actually-emitted alerts. -/
def runAlerts (st : AlertState) : List ℤ → List ℤ
  | [] => []
  | t :: ts =>
    let r := triggerAlert t st
    if r.2 then t :: runAlerts r.1 ts else runAlerts r.1 ts

/-- The first emitted alert of a run is at least 250 ms after the
incoming state's last alert time. -/
theorem runAlerts_head_lb (ts : List ℤ) :
    ∀ st : AlertState, ∀ t0 ∈ (runAlerts st ts).head?,
      250 ≤ t0 - st.lastAlertTime := by
  induction ts with
  | nil => intro st t0 h; simp [runAlerts] at h
  | cons t ts ih =>
    intro st t0 h
    by_cases hf : t - st.lastAlertTime < 250
    · rw [show runAlerts st (t :: ts) = runAlerts st ts from by
        simp [runAlerts, triggerAlert, hf]] at h
      exact ih st t0 h
    · rw [show runAlerts st (t :: ts) = t :: runAlerts ⟨t⟩ ts from by
        simp [runAlerts, triggerAlert, hf]] at h
      simp only [List.head?_cons, Option.mem_some_iff] at h
      omega

/-- C10: `triggerAlert` is debounced — along any sequence of calls, any
two consecutive actually-emitted alerts are at least 250 ms apart, and a
call arriving within 250 ms of the last emitted alert changes nothing and
emits nothing. -/
theorem alert_debounce (st : AlertState) (ts : List ℤ) (now : ℤ) :
    List.Chain' (fun a b => 250 ≤ b - a) (runAlerts st ts) ∧
    (now - st.lastAlertTime < 250 → triggerAlert now st = (st, false)) := by
  constructor
  · induction ts generalizing st with
    | nil => simp [runAlerts]
    | cons t ts ih =>
      by_cases hf : t - st.lastAlertTime < 250
      · rw [show runAlerts st (t :: ts) = runAlerts st ts from by
          simp [runAlerts, triggerAlert, hf]]
        exact ih st
      · rw [show runAlerts st (t :: ts) = t :: runAlerts ⟨t⟩ ts from by
          simp [runAlerts, triggerAlert, hf]]
        rw [List.chain'_cons']
        refine ⟨?_, ih ⟨t⟩⟩
        intro y hy
        have := runAlerts_head_lb ts ⟨t⟩ y hy
        simpa using this
  · intro h
    simp [triggerAlert, h]

/-- Witness for C10: a call 100 ms after the last emitted alert is a
no-op. -/
theorem alert_debounce_witness :
    ((1100 : ℤ) - (⟨1000⟩ : AlertState).lastAlertTime < 250) ∧
    triggerAlert 1100 ⟨1000⟩ = (⟨1000⟩, false) :=
  ⟨by decide, (alert_debounce ⟨1000⟩ [] 1100).2 (by decide)⟩

end Guardian
